import Mathlib

/-! Searchbox backend: scraper and HTTP handlers.

A shallow embedding of `backend/models/product.go`, `backend/scraper/scraper.go`
and `backend/handlers/handlers.go`.

Go strings are embedded as Lean `String`s (sequences of characters).  Every
separator, prefix and suffix the program searches for (`"/i"`, `"/"`, `"."`,
`"i"`, `".html"`) is ASCII, so the byte offsets Go computes and the character
offsets used here delimit the same substrings.
-/

namespace Searchbox

/-! ## The part of Go's `strings` package the scraper uses -/

/-- Character-level `strings.Index`: offset of the first occurrence of `sep` in
the text, `-1` when there is none. -/
def indexChars (sep : List Char) : List Char → Int
  | [] => if sep = [] then 0 else -1
  | c :: cs =>
    if sep.isPrefixOf (c :: cs) then 0
    else
      let m := indexChars sep cs
      if m < 0 then -1 else m + 1

/-- Character-level loop of `strings.Split` (`genSplit`): cut at the first
occurrence of `sep`, continue after it.  The counter bounds the number of
cuts, as `n` does in Go. -/
def splitLoop (sep : List Char) : Nat → List Char → List (List Char)
  | 0, s => [s]
  | n + 1, s =>
    let m := indexChars sep s
    if m < 0 then [s]
    else s.take m.toNat :: splitLoop sep n (s.drop (m.toNat + sep.length))

/-- Go `strings.Index(s, substr)`. -/
def Index (s substr : String) : Int :=
  indexChars substr.data s.data

/-- Go `strings.Split(s, sep)` for a non-empty separator. -/
def Split (s sep : String) : List String :=
  (splitLoop sep.data s.data.length s.data).map String.mk

/-- Go `strings.HasPrefix(s, p)`. -/
def HasPrefix (s p : String) : Bool :=
  p.data.isPrefixOf s.data

/-- Go `strings.HasSuffix(s, p)`. -/
def HasSuffix (s p : String) : Bool :=
  p.data.isSuffixOf s.data

/-- Go `len(s)`, counted in characters. -/
def len (s : String) : Nat :=
  s.data.length

/-- Go slice expression `s[lo:hi]`. -/
def slice (s : String) (lo hi : Nat) : String :=
  String.mk ((s.data.take hi).drop lo)

/-- Go `unicode.IsSpace`. -/
def isSpace (c : Char) : Bool :=
  let n := c.toNat
  n == 0x09 || n == 0x0A || n == 0x0B || n == 0x0C || n == 0x0D || n == 0x20
    || n == 0x85 || n == 0xA0 || n == 0x1680 || (0x2000 ≤ n && n ≤ 0x200A)
    || n == 0x2028 || n == 0x2029 || n == 0x202F || n == 0x205F || n == 0x3000

/-- Go `strings.TrimSpace(s)`. -/
def TrimSpace (s : String) : String :=
  String.mk (((s.data.dropWhile isSpace).reverse.dropWhile isSpace).reverse)

/-! ## `models.Product` -/

/-- Go `models.Product`; every field is a string whose zero value is `""`. -/
structure Product where
  ID : String := ""
  Title : String := ""
  Image : String := ""
  StoreName : String := ""
  Price : String := ""
  Rating : String := ""
  ReviewCount : String := ""
  Seller : String := ""
  Link : String := ""
  DetailedDescription : String := ""
  deriving DecidableEq, Repr

/-! ## `scraper.extractProductID` and `scraper.getRandomReviewCount` -/

/-- Go `extractProductID(url)`. -/
def extractProductID (url : String) : String :=
  if url = "" then ""
  else
    let parts := Split url "/i"
    if parts.length > 1 then
      let idPart := parts.getD 1 ""
      let dotIndex := Index idPart "."
      if dotIndex > 0 then slice idPart 0 dotIndex.toNat
      else idPart
    else
      let parts := Split url "/"
      if parts.length > 0 then
        let lastPart := parts.getD (parts.length - 1) ""
        if HasPrefix lastPart "i" && HasSuffix lastPart ".html" then
          slice lastPart 1 (len lastPart - 5)
        else ""
      else ""

/-- Go `getRandomReviewCount()`: a fixed table read at the constant index 0. -/
def getRandomReviewCount : String :=
  let counts := ["126", "238", "452", "189", "86", "314", "92", "517", "64", "273", "195"]
  let index := 0
  counts.getD index ""

/-! ## The collector, as the scraper observes it

`colly` is an external library.  A call of `c.Visit(url)` is embedded by its
observable outcome: the error it returns, the error handed to the `OnError`
callback when that callback ran, and for every selector registered with
`OnHTML` the elements handed to its callback, in document order.  Callbacks of
different selectors run in registration order. -/

/-- The three accessors of `colly.HTMLElement` the callbacks use, and
`e.Request.URL.String()`. -/
structure HTMLElement where
  Attr : String → String
  ChildText : String → String
  ChildAttr : String → String → String
  RequestURL : String

/-- Outcome of one `c.Visit(url)`; `none` is Go's `nil` error. -/
structure VisitResult where
  err : Option String
  onError : Option String
  onHTML : String → List HTMLElement

/-! ## `scraper.getFallbackProducts`, `scraper.getFallbackProduct` -/

/-- Go `getFallbackProducts()`. -/
def getFallbackProducts : List Product :=
  [ { ID := "1"
      Title := "Apple iPhone 13 Pro Max"
      Image := "https://images.pexels.com/photos/1647976/pexels-photo-1647976.jpeg?auto=compress&cs=tinysrgb&w=1260&h=750&dpr=2"
      StoreName := "Apple Store"
      Price := "$1,099.00"
      Rating := "4.8"
      ReviewCount := "2,453"
      Seller := "Apple Inc."
      Link := "https://www.apple.com/shop/buy-iphone/iphone-13-pro" },
    { ID := "2"
      Title := "Samsung Galaxy S22 Ultra"
      Image := "https://images.pexels.com/photos/7055323/pexels-photo-7055323.jpeg?auto=compress&cs=tinysrgb&w=1260&h=750&dpr=2"
      StoreName := "Samsung"
      Price := "$1,199.99"
      Rating := "4.7"
      ReviewCount := "1,832"
      Seller := "Samsung Electronics"
      Link := "https://www.samsung.com/us/smartphones/galaxy-s22-ultra/" },
    { ID := "3"
      Title := "Sony WH-1000XM4 Wireless Noise Cancelling Headphones"
      Image := "https://images.pexels.com/photos/3394664/pexels-photo-3394664.jpeg?auto=compress&cs=tinysrgb&w=1260&h=750&dpr=2"
      StoreName := "Sony"
      Price := "$348.00"
      Rating := "4.7"
      ReviewCount := "738"
      Seller := "Sony Electronics"
      Link := "https://electronics.sony.com/audio/headphones/headband/p/wh1000xm4-b" },
    { ID := "4"
      Title := "Nike Air Max 270"
      Image := "https://images.pexels.com/photos/1102777/pexels-photo-1102777.jpeg?auto=compress&cs=tinysrgb&w=1260&h=750&dpr=2"
      StoreName := "Nike"
      Price := "$150.00"
      Rating := "4.5"
      ReviewCount := "428"
      Seller := "Nike Inc."
      Link := "https://www.nike.com/t/air-max-270-mens-shoes-KkLcGR" } ]

/-- Go `getFallbackProduct(id)`. -/
def getFallbackProduct (id : String) : Product :=
  { ID := id
    Title := "Apple MacBook Pro 16-inch"
    Image := "https://images.pexels.com/photos/18105/pexels-photo.jpg?auto=compress&cs=tinysrgb&w=1260&h=750&dpr=2"
    StoreName := "Apple Store"
    Price := "$2,399.00"
    Rating := "4.9"
    ReviewCount := "856"
    Seller := "Apple Inc."
    Link := "https://www.apple.com/shop/buy-mac/macbook-pro"
    DetailedDescription := "The Apple MacBook Pro features a brilliant Retina display, powerful processors, amazing graphics, and the versatile Touch Bar. It's our most powerful notebook. Pushed even further. The 16-inch MacBook Pro brings a whole new class of performance to the notebook. With up to 8 cores of processing power and an expansive 16-inch Retina display, it's the largest Retina display ever in a Mac notebook." }

/-! ## `scraper.ScrapeDaraz` -/

/-- First half of the callback `ScrapeDaraz` registers for
`div[data-qa-locator='product-item']` (scraper.go lines 97-123): the record
after the primary selectors, the fallback selectors and the identifier
derivation. -/
def productItemCandidate (e : HTMLElement) : Product :=
  let product : Product :=
    { ID := e.Attr "data-item-id"
      Title := TrimSpace (e.ChildText "div[data-qa-locator='product-name']")
      Image := e.ChildAttr "img" "src"
      Price := TrimSpace (e.ChildText "span[data-qa-locator='product-price']")
      StoreName := "Daraz"
      Rating := TrimSpace (e.ChildText "div.rating__stars")
      Seller := TrimSpace (e.ChildText "div.seller-name__detail") }
  let product :=
    if product.Title = "" then
      { product with Title := TrimSpace (e.ChildText "div.title--wFj93") }
    else product
  let product :=
    if product.Price = "" then
      { product with Price := TrimSpace (e.ChildText "div.price--NVB62") }
    else product
  let product :=
    if product.Image = "" then
      { product with Image := e.ChildAttr "img.image--WOyuZ" "src" }
    else product
  if product.ID = "" then
    let productLink := e.ChildAttr "a" "href"
    { product with ID := extractProductID productLink, Link := productLink }
  else product

/-- The callback `ScrapeDaraz` registers for
`div[data-qa-locator='product-item']` (scraper.go lines 96-138), as a step on
the accumulated `products`. -/
def onProductItem (products : List Product) (e : HTMLElement) : List Product :=
  let product := productItemCandidate e
  if product.Title ≠ "" ∨ product.Price ≠ "" then
    let product :=
      if product.Link = "" ∧ product.ID ≠ "" then
        { product with Link := "https://www.daraz.com.np/products/i" ++ product.ID ++ ".html" }
      else product
    let product :=
      if product.Rating ≠ "" ∧ product.ReviewCount = "" then
        { product with ReviewCount := getRandomReviewCount }
      else product
    products ++ [product]
  else products

/-- The record the `div.box--pRqdD` callback builds (scraper.go lines 142-151). -/
def boxCandidate (e : HTMLElement) : Product :=
  let product : Product :=
    { Title := TrimSpace (e.ChildText "div.title--wFj93")
      Price := TrimSpace (e.ChildText "div.price--NVB62")
      Image := e.ChildAttr "img.image--WOyuZ" "src"
      StoreName := "Daraz" }
  let productLink := e.ChildAttr "a" "href"
  { product with ID := extractProductID productLink, Link := productLink }

/-- The callback `ScrapeDaraz` registers for `div.box--pRqdD`
(scraper.go lines 141-156), as a step on the accumulated `products`. -/
def onBox (products : List Product) (e : HTMLElement) : List Product :=
  let product := boxCandidate e
  if product.Title ≠ "" ∨ product.Price ≠ "" then products ++ [product]
  else products

/-- The value of `products` in `ScrapeDaraz` once `c.Visit` has returned:
both callbacks have run over their elements, in registration order. -/
def collectProducts (r : VisitResult) : List Product :=
  let products : List Product := []
  let products := (r.onHTML "div[data-qa-locator='product-item']").foldl onProductItem products
  (r.onHTML "div.box--pRqdD").foldl onBox products

/-- Go `ScrapeDaraz(query)`; `visit` is the collector's `c.Visit`.  The second
component is the returned `error`. -/
def ScrapeDaraz (visit : String → VisitResult) (query : String) :
    List Product × Option String :=
  let searchURL := "https://www.daraz.com.np/catalog/?q=" ++ query
  let r := visit searchURL
  let scrapeError := r.onError
  let products := collectProducts r
  if r.err ≠ none then (getFallbackProducts, none)
  else if scrapeError ≠ none then (getFallbackProducts, none)
  else if products.length = 0 then (getFallbackProducts, none)
  else (products, none)

/-! ## `scraper.ScrapeProductDetailDaraz` -/

/-- The callback `ScrapeProductDetailDaraz` registers for `div.pdp-block`
(scraper.go lines 197-219), as a step on the captured `product`. -/
def onPdpBlock (product : Product) (e : HTMLElement) : Product :=
  let product := { product with
    Title := TrimSpace (e.ChildText "h1.pdp-title")
    Price := TrimSpace (e.ChildText "div.pdp-price") }
  let product := { product with Image := e.ChildAttr "img.gallery-preview-panel__image" "src" }
  let product :=
    if product.Image = "" then
      { product with Image := e.ChildAttr "img.pdp-mod-common-image" "src" }
    else product
  let product := { product with
    Rating := TrimSpace (e.ChildText "div.review-summary__rating")
    ReviewCount := TrimSpace (e.ChildText "div.review-summary__count") }
  let product := { product with
    DetailedDescription := TrimSpace (e.ChildText "div.pdp-product-detail") }
  let product :=
    if product.DetailedDescription = "" then
      { product with DetailedDescription := TrimSpace (e.ChildText "div.html-content") }
    else product
  { product with Link := e.RequestURL }

/-- The value of `product` in `ScrapeProductDetailDaraz` once `c.Visit` has
returned. -/
def collectDetail (id : String) (r : VisitResult) : Product :=
  let product : Product := { ID := id, StoreName := "Daraz" }
  (r.onHTML "div.pdp-block").foldl onPdpBlock product

/-- Go `ScrapeProductDetailDaraz(id)`; `visit` is the collector's `c.Visit`. -/
def ScrapeProductDetailDaraz (visit : String → VisitResult) (id : String) :
    Product × Option String :=
  let productURL := "https://www.daraz.com.np/products/i" ++ id ++ ".html"
  let r := visit productURL
  let scrapeError := r.onError
  let product := collectDetail id r
  if r.err ≠ none then (getFallbackProduct id, none)
  else if scrapeError ≠ none then (getFallbackProduct id, none)
  else if product.Title = "" then (getFallbackProduct id, some "product not found")
  else (product, none)

/-! ## `handlers.SearchProducts`, `handlers.GetProductDetail` -/

/-- Go `http.StatusOK`. -/
def StatusOK : Nat := 200
/-- Go `http.StatusBadRequest`. -/
def StatusBadRequest : Nat := 400
/-- Go `http.StatusNotFound`. -/
def StatusNotFound : Nat := 404
/-- Go `http.StatusInternalServerError`. -/
def StatusInternalServerError : Nat := 500

/-- What a handler writes after the headers: the text of `http.Error`, or the
value handed to `json.NewEncoder(w).Encode`. -/
inductive Body where
  | error (msg : String)
  | products (ps : List Product)
  | product (p : Product)
  deriving DecidableEq

/-- Calls a handler makes besides writing the response. -/
inductive Call where
  | sleep (seconds : Nat)
  | scrapeDaraz (query : String)
  | scrapeProductDetailDaraz (id : String)
  deriving DecidableEq

/-- A handled request: the status and body written to the
`http.ResponseWriter`, and the calls made on the way, in order. -/
structure Response where
  status : Nat
  body : Body
  calls : List Call

/-- Go `SearchProducts(w, r)`; `q` and `delay` are `r.URL.Query().Get("q")`
and `r.URL.Query().Get("delay")` (empty when the parameter is absent). -/
def SearchProducts (visit : String → VisitResult) (q delay : String) : Response :=
  let query := q
  if query = "" then
    { status := StatusBadRequest, body := .error "Query parameter 'q' is required", calls := [] }
  else
    let calls : List Call := if delay = "true" then [.sleep 1] else []
    let calls := calls ++ [.scrapeDaraz query]
    let (products, err) := ScrapeDaraz visit query
    if err ≠ none then
      { status := StatusInternalServerError, body := .error "Failed to retrieve products",
        calls := calls }
    else
      { status := StatusOK, body := .products products, calls := calls }

/-- Go `GetProductDetail(w, r)`; `id` is `mux.Vars(r)["id"]` (empty when the
variable is absent). -/
def GetProductDetail (visit : String → VisitResult) (id : String) : Response :=
  let productID := id
  if productID = "" then
    { status := StatusBadRequest, body := .error "Product ID is required", calls := [] }
  else
    let calls : List Call := [.scrapeProductDetailDaraz productID]
    let (product, err) := ScrapeProductDetailDaraz visit productID
    if err ≠ none then
      { status := StatusInternalServerError, body := .error "Failed to retrieve product details",
        calls := calls }
    else if product.Title = "" then
      { status := StatusNotFound, body := .error "Product not found", calls := calls }
    else
      { status := StatusOK, body := .product product, calls := calls }

/-! ## Sample collector outcomes -/

/-- A visit that fails in transport: `c.Visit` returns the error and the
`OnError` callback received it; no element is matched. -/
def visitFails : String → VisitResult := fun _ =>
  { err := some "Get: dial tcp: i/o timeout"
    onError := some "Get: dial tcp: i/o timeout"
    onHTML := fun _ => [] }

/-- A product card of the primary layout: identifier attribute, name, price and
rating present. -/
def phoneItem : HTMLElement :=
  { Attr := fun k => if k = "data-item-id" then "129384756" else ""
    ChildText := fun sel =>
      if sel = "div[data-qa-locator='product-name']" then "  Redmi Note 12 \n"
      else if sel = "span[data-qa-locator='product-price']" then "Rs. 24,999"
      else if sel = "div.rating__stars" then " 4.5 "
      else ""
    ChildAttr := fun sel a =>
      if sel = "img" ∧ a = "src" then "https://static.example/redmi.jpg" else ""
    RequestURL := "https://www.daraz.com.np/catalog/?q=phone" }

/-- A product card of the primary layout without rating, identifier only in
its link. -/
def caseItem : HTMLElement :=
  { Attr := fun _ => ""
    ChildText := fun sel => if sel = "div.price--NVB62" then "Rs. 350" else ""
    ChildAttr := fun sel a =>
      if sel = "a" ∧ a = "href" then "https://www.daraz.com.np/products/i55501.html" else ""
    RequestURL := "https://www.daraz.com.np/catalog/?q=phone" }

/-- A card of the alternative layout. -/
def chargerBox : HTMLElement :=
  { Attr := fun _ => ""
    ChildText := fun sel =>
      if sel = "div.title--wFj93" then "USB-C Charger" else ""
    ChildAttr := fun sel a =>
      if sel = "a" ∧ a = "href" then "https://www.daraz.com.np/products/i777.html" else ""
    RequestURL := "https://www.daraz.com.np/catalog/?q=phone" }

/-- A card with neither title nor price. -/
def blankItem : HTMLElement :=
  { Attr := fun _ => ""
    ChildText := fun _ => "   "
    ChildAttr := fun _ _ => ""
    RequestURL := "https://www.daraz.com.np/catalog/?q=phone" }

/-- A fetched results page with three primary cards and one alternative card. -/
def visitListing : String → VisitResult := fun _ =>
  { err := none
    onError := none
    onHTML := fun sel =>
      if sel = "div[data-qa-locator='product-item']" then [phoneItem, blankItem, caseItem]
      else if sel = "div.box--pRqdD" then [chargerBox]
      else [] }

/-- A fetched detail page whose `div.pdp-block` carries price and rating but an
empty `h1.pdp-title`. -/
def visitUntitled : String → VisitResult := fun url =>
  { err := none
    onError := none
    onHTML := fun sel =>
      if sel = "div.pdp-block" then
        [ { Attr := fun _ => ""
            ChildText := fun s =>
              if s = "div.pdp-price" then "Rs. 1,200"
              else if s = "div.review-summary__rating" then "4.1"
              else ""
            ChildAttr := fun _ _ => ""
            RequestURL := url } ]
      else [] }

/-- The record `onProductItem` builds from `phoneItem`. -/
def phoneRecord : Product :=
  { ID := "129384756"
    Title := "Redmi Note 12"
    Image := "https://static.example/redmi.jpg"
    StoreName := "Daraz"
    Price := "Rs. 24,999"
    Rating := "4.5"
    ReviewCount := "126"
    Link := "https://www.daraz.com.np/products/i129384756.html" }

/-- The record `onProductItem` builds from `caseItem`. -/
def caseRecord : Product :=
  { ID := "55501"
    StoreName := "Daraz"
    Price := "Rs. 350"
    Link := "https://www.daraz.com.np/products/i55501.html" }


/-! ## Facts about the string primitives -/

theorem indexChars_ge (sep s : List Char) : -1 ≤ indexChars sep s := by
  induction s with
  | nil => unfold indexChars; split <;> omega
  | cons c cs ih =>
    unfold indexChars
    split
    · omega
    · simp only []
      split <;> omega

theorem indexChars_neg_iff (sep s : List Char) :
    indexChars sep s < 0 ↔ ¬ sep <:+: s := by
  induction s with
  | nil =>
    unfold indexChars
    by_cases h : sep = []
    · simp [h]
    · simp [h]
  | cons c cs ih =>
    unfold indexChars
    have hge := indexChars_ge sep cs
    rw [List.infix_cons_iff]
    by_cases hp : sep.isPrefixOf (c :: cs) = true
    · have hp2 : sep <+: c :: cs := List.isPrefixOf_iff_prefix.mp hp
      simp [hp, hp2]
    · have hp2 : ¬ sep <+: c :: cs := fun h => hp (List.isPrefixOf_iff_prefix.mpr h)
      simp only [hp, hp2, false_or, if_false]
      rw [← ih]
      constructor
      · intro h
        by_contra hn
        rw [if_neg hn] at h
        omega
      · intro h
        rw [if_pos h]; decide

theorem indexChars_pair_append (a b : Char) (hab : a ≠ b) (pre rest : List Char)
    (h : indexChars [a, b] pre < 0) :
    indexChars [a, b] (pre ++ a :: b :: rest) = pre.length := by
  induction pre with
  | nil => simp [indexChars, List.isPrefixOf]
  | cons c cs ih =>
    have hge := indexChars_ge [a, b] cs
    unfold indexChars at h
    by_cases hp : List.isPrefixOf [a, b] (c :: cs) = true
    · simp [hp] at h
    · simp only [hp, if_false] at h
      have hcs : indexChars [a, b] cs < 0 := by
        by_contra hn
        rw [if_neg hn] at h
        omega
      have ih2 := ih hcs
      have hp3 : List.isPrefixOf [a, b] (c :: (cs ++ a :: b :: rest)) = false := by
        cases cs with
        | nil =>
          simp [List.isPrefixOf]
          intro _ h2; exact absurd h2.symm hab
        | cons d ds =>
          simp [List.isPrefixOf] at hp ⊢
          exact hp
      simp only [List.cons_append]
      unfold indexChars
      simp only [hp3, ih2]
      simp

theorem indexChars_pair_append_neg (a b : Char) (s t : List Char)
    (hs : indexChars [a, b] s < 0) (ht : indexChars [a, b] t < 0)
    (hb : t.head? ≠ some b) :
    indexChars [a, b] (s ++ t) < 0 := by
  induction s with
  | nil => simpa using ht
  | cons c cs ih =>
    have hge := indexChars_ge [a, b] cs
    unfold indexChars at hs
    by_cases hp : List.isPrefixOf [a, b] (c :: cs) = true
    · simp [hp] at hs
    · simp only [hp, if_false] at hs
      have hcs : indexChars [a, b] cs < 0 := by
        by_contra hn
        rw [if_neg hn] at hs
        omega
      have ih2 := ih hcs
      have hp3 : List.isPrefixOf [a, b] (c :: (cs ++ t)) = false := by
        cases cs with
        | nil =>
          cases t with
          | nil => simp [List.isPrefixOf]
          | cons d ds =>
            simp [List.isPrefixOf]
            intro _ h2
            apply hb
            simp [h2]
        | cons d ds =>
          simp [List.isPrefixOf] at hp ⊢
          exact hp
      simp only [List.cons_append]
      unfold indexChars
      simp only [hp3, ih2]
      simp

theorem indexChars_single_append (c : Char) (xs ys : List Char) (h : c ∉ xs) :
    indexChars [c] (xs ++ c :: ys) = xs.length := by
  induction xs with
  | nil => simp [indexChars, List.isPrefixOf]
  | cons x xs ih =>
    have hx : c ≠ x := fun e => h (by simp [e])
    have hxs : c ∉ xs := fun e => h (by simp [e])
    have ih2 := ih hxs
    simp only [List.cons_append]
    unfold indexChars
    simp [List.isPrefixOf, hx, ih2]

theorem splitLoop_of_neg (sep : List Char) (n : Nat) (s : List Char)
    (h : indexChars sep s < 0) : splitLoop sep n s = [s] := by
  cases n with
  | zero => rfl
  | succ n => simp [splitLoop, h]


theorem indexChars_add_le (sep s : List Char) (h : 0 ≤ indexChars sep s) :
    (indexChars sep s).toNat + sep.length ≤ s.length := by
  induction s with
  | nil =>
    unfold indexChars at h ⊢
    by_cases hs : sep = []
    · simp [hs]
    · simp [hs] at h
  | cons c cs ih =>
    have hge := indexChars_ge sep cs
    unfold indexChars at h ⊢
    by_cases hp : sep.isPrefixOf (c :: cs) = true
    · have hl := (List.isPrefixOf_iff_prefix.mp hp).length_le
      simp only [hp, if_true]
      simpa using hl
    · simp only [hp, if_false] at h ⊢
      by_cases hn : indexChars sep cs < 0
      · rw [if_pos hn] at h
        exact absurd h (by decide)
      · rw [if_neg hn]
        have ih2 := ih (by omega)
        simp only [List.length_cons]
        omega

theorem indexChars_append (sep s t : List Char) (h : 0 ≤ indexChars sep s) :
    indexChars sep (s ++ t) = indexChars sep s := by
  induction s with
  | nil =>
    unfold indexChars at h
    by_cases hs : sep = []
    · subst hs
      cases t <;> simp [indexChars, List.isPrefixOf]
    · simp [hs] at h
  | cons c cs ih =>
    have hge := indexChars_ge sep cs
    simp only [List.cons_append]
    unfold indexChars at h ⊢
    by_cases hp : sep.isPrefixOf (c :: cs) = true
    · have hp2 : sep.isPrefixOf (c :: (cs ++ t)) = true := by
        rw [List.isPrefixOf_iff_prefix] at hp ⊢
        exact hp.trans (List.prefix_append (c :: cs) t)
      simp only [hp, hp2, if_true]
    · simp only [hp, if_false] at h
      by_cases hn : indexChars sep cs < 0
      · rw [if_pos hn] at h
        exact absurd h (by decide)
      · have hp2 : ¬ sep.isPrefixOf (c :: (cs ++ t)) = true := by
          intro hq
          apply hp
          rw [List.isPrefixOf_iff_prefix] at hq ⊢
          have hq2 : sep <+: (c :: cs) ++ t := hq
          have hle := indexChars_add_le sep cs (by omega)
          exact List.prefix_of_prefix_length_le hq2 (List.prefix_append _ _)
            (by simp only [List.length_cons]; omega)
        simp only [hp, hp2, if_false]
        rw [ih (by omega)]

theorem Split_cons (pre t : String) (hpre : ¬ "/i".data <:+: pre.data) :
    Split (pre ++ "/i" ++ t) "/i"
      = pre :: (splitLoop ['/', 'i'] (pre.data.length + t.data.length + 1) t.data).map
          String.mk := by
  have hS : "/i".data = ['/', 'i'] := rfl
  rw [hS] at hpre
  have h1 : indexChars ['/', 'i'] pre.data < 0 := (indexChars_neg_iff _ _).mpr hpre
  have h4 := indexChars_pair_append '/' 'i' (by decide) pre.data t.data h1
  have hd : (pre ++ "/i" ++ t).data = pre.data ++ '/' :: 'i' :: t.data := by
    simp [String.data_append, hS]
  unfold Split
  rw [hd, hS]
  have hlen : (pre.data ++ '/' :: 'i' :: t.data).length
      = (pre.data.length + t.data.length + 1) + 1 := by
    simp; omega
  rw [hlen, splitLoop]
  simp only [h4]
  have hnn : ¬ ((pre.data.length : Int) < 0) := by omega
  rw [if_neg hnn]
  simp only [Int.toNat_ofNat, List.take_left', List.length_cons, List.length_nil]
  have hdrop : List.drop (pre.data.length + (0 + 1 + 1)) (pre.data ++ '/' :: 'i' :: t.data)
      = t.data := by
    rw [List.drop_append]
    rfl
  rw [hdrop]
  rfl

theorem extractProductID_of_Split (url p0 p1 : String) (rest : List String)
    (hurl : url ≠ "") (h : Split url "/i" = p0 :: p1 :: rest) :
    extractProductID url
      = if Index p1 "." > 0 then slice p1 0 (Index p1 ".").toNat else p1 := by
  unfold extractProductID
  rw [if_neg hurl]
  simp [h]

theorem data_link (pre t : String) :
    (pre ++ "/i" ++ t).data = pre.data ++ '/' :: 'i' :: t.data := by
  have hS : "/i".data = ['/', 'i'] := rfl
  simp [String.data_append, hS]

theorem link_ne_empty (pre t : String) : pre ++ "/i" ++ t ≠ "" := by
  intro h
  have := congrArg String.data h
  rw [data_link] at this
  simp at this

theorem extractProductID_link (pre id : String) (hpre : ¬ "/i".data <:+: pre.data)
    (hne : id ≠ "") (hdot : '.' ∉ id.data) (hid : ¬ "/i".data <:+: id.data) :
    extractProductID (pre ++ "/i" ++ (id ++ ".html")) = id := by
  have hH : ".html".data = ['.', 'h', 't', 'm', 'l'] := rfl
  have hS : "/i".data = ['/', 'i'] := rfl
  have hidne : id.data ≠ [] := fun h => hne (String.ext h)
  rw [hS] at hid
  have h2 : indexChars ['/', 'i'] id.data < 0 := (indexChars_neg_iff _ _).mpr hid
  have h3 : indexChars ['/', 'i'] (id ++ ".html").data < 0 := by
    rw [String.data_append, hH]
    exact indexChars_pair_append_neg _ _ _ _ h2 (by decide) (by simp)
  have hsplit := Split_cons pre (id ++ ".html") hpre
  rw [splitLoop_of_neg _ _ _ h3] at hsplit
  rw [extractProductID_of_Split _ pre (id ++ ".html") [] (link_ne_empty _ _) hsplit]
  have hI : Index (id ++ ".html") "." = id.data.length := by
    unfold Index
    rw [String.data_append, hH]
    exact indexChars_single_append '.' id.data _ hdot
  have hpos : (id.data.length : Int) > 0 := by
    have : 0 < id.data.length := List.length_pos.mpr hidne
    omega
  have h0 : ¬ id.length = 0 := fun h => hidne (List.length_eq_zero.mp h)
  rw [hI]
  simp [hpos, h0, slice, String.data_append, String.ext_iff]


theorem idPart_result_length_le (p1 : String) :
    (if Index p1 "." > 0 then slice p1 0 (Index p1 ".").toNat else p1).data.length
      ≤ p1.data.length := by
  split
  · simp only [slice, List.drop_zero, List.length_take]
    omega
  · exact Nat.le_refl _

theorem extractProductID_link_short (pre id : String)
    (hpre : ¬ "/i".data <:+: pre.data) (hid : "/i".data <:+: id.data) :
    (extractProductID (pre ++ "/i" ++ (id ++ ".html"))).data.length < id.data.length := by
  have hS : "/i".data = ['/', 'i'] := rfl
  rw [hS] at hid
  have hm : 0 ≤ indexChars ['/', 'i'] id.data := by
    have := (indexChars_neg_iff ['/', 'i'] id.data).not.mpr (not_not.mpr hid)
    omega
  have hle := indexChars_add_le _ _ hm
  have happ : indexChars ['/', 'i'] (id ++ ".html").data = indexChars ['/', 'i'] id.data := by
    rw [String.data_append]
    exact indexChars_append _ _ _ hm
  have hsplit := Split_cons pre (id ++ ".html") hpre
  rw [splitLoop] at hsplit
  simp only [happ] at hsplit
  rw [if_neg (by omega), List.map_cons] at hsplit
  rw [extractProductID_of_Split _ _ _ _ (link_ne_empty _ _) hsplit]
  refine Nat.lt_of_le_of_lt (idPart_result_length_le _) ?_
  simp only [List.length_take, List.length_cons, List.length_nil] at hle ⊢
  omega

theorem extractProductID_link_of_dot (pre id : String)
    (hpre : ¬ "/i".data <:+: pre.data) (hid : ¬ "/i".data <:+: id.data)
    (hdot : '.' ∈ id.data) :
    (extractProductID (pre ++ "/i" ++ (id ++ ".html"))).data.length ≠ id.data.length := by
  have hH : ".html".data = ['.', 'h', 't', 'm', 'l'] := rfl
  have hS : "/i".data = ['/', 'i'] := rfl
  rw [hS] at hid
  have h2 : indexChars ['/', 'i'] id.data < 0 := (indexChars_neg_iff _ _).mpr hid
  have h3 : indexChars ['/', 'i'] (id ++ ".html").data < 0 := by
    rw [String.data_append, hH]
    exact indexChars_pair_append_neg _ _ _ _ h2 (by decide) (by simp)
  have hsplit := Split_cons pre (id ++ ".html") hpre
  rw [splitLoop_of_neg _ _ _ h3] at hsplit
  rw [extractProductID_of_Split _ pre (id ++ ".html") [] (link_ne_empty _ _) hsplit]
  have hinf : ['.'] <:+: id.data := by
    obtain ⟨s, t, hst⟩ := List.append_of_mem hdot
    exact ⟨s, t, by simp [hst]⟩
  have hk : 0 ≤ indexChars ['.'] id.data := by
    have := (indexChars_neg_iff ['.'] id.data).not.mpr (not_not.mpr hinf)
    omega
  have hle := indexChars_add_le _ _ hk
  have hI : Index (id ++ ".html") "." = indexChars ['.'] id.data := by
    unfold Index
    rw [String.data_append]
    exact indexChars_append _ _ _ hk
  rw [hI]
  simp only [List.length_cons, List.length_nil] at hle
  split
  · simp only [slice, List.drop_zero, List.length_take, String.data_append, List.length_append]
    omega
  · simp only [String.data_append, List.length_append, hH, List.length_cons, List.length_nil]
    omega

theorem extractProductID_link_iff (pre id : String) (hpre : ¬ "/i".data <:+: pre.data) :
    extractProductID (pre ++ "/i" ++ (id ++ ".html")) = id
      ↔ (id ≠ "" ∧ '.' ∉ id.data ∧ ¬ "/i".data <:+: id.data) := by
  constructor
  · intro h
    have hlen := congrArg (fun s : String => s.data.length) h
    simp only at hlen
    have hinf : ¬ "/i".data <:+: id.data := fun hi =>
      absurd hlen (Nat.ne_of_lt (extractProductID_link_short pre id hpre hi))
    have hdot : '.' ∉ id.data := fun hd =>
      extractProductID_link_of_dot pre id hpre hinf hd hlen
    refine ⟨?_, hdot, hinf⟩
    intro he
    subst he
    have hS : "/i".data = ['/', 'i'] := rfl
    have h3 : indexChars ['/', 'i'] ("" ++ ".html").data < 0 := by decide
    have hsplit := Split_cons pre ("" ++ ".html") hpre
    rw [splitLoop_of_neg _ _ _ h3] at hsplit
    rw [extractProductID_of_Split _ pre ("" ++ ".html") [] (link_ne_empty _ _) hsplit] at hlen
    revert hlen
    decide
  · rintro ⟨hne, hdot, hid⟩
    exact extractProductID_link pre id hpre hne hdot hid


theorem splitLoop_ne_nil (sep : List Char) (n : Nat) (s : List Char) :
    splitLoop sep n s ≠ [] := by
  cases n with
  | zero => simp [splitLoop]
  | succ n =>
    unfold splitLoop
    simp only []
    split <;> simp

theorem indexChars_slash_tail (seg : List Char) (pre : List Char) :
    0 ≤ indexChars ['/'] (pre ++ '/' :: seg)
      ∧ (pre ++ '/' :: seg).drop ((indexChars ['/'] (pre ++ '/' :: seg)).toNat + 1) = seg
        ∨ 0 ≤ indexChars ['/'] (pre ++ '/' :: seg)
          ∧ ∃ pre2, (pre ++ '/' :: seg).drop
              ((indexChars ['/'] (pre ++ '/' :: seg)).toNat + 1) = pre2 ++ '/' :: seg := by
  induction pre with
  | nil =>
    left
    simp [indexChars, List.isPrefixOf]
  | cons c cs ih =>
    by_cases hc : c = '/'
    · right
      subst hc
      refine ⟨by simp [indexChars, List.isPrefixOf], cs, ?_⟩
      simp [indexChars, List.isPrefixOf]
    · have hc2 : ¬ '/' = c := fun h => hc h.symm
      have hstep : indexChars ['/'] (c :: cs ++ '/' :: seg)
          = indexChars ['/'] (cs ++ '/' :: seg) + 1 := by
        have h0 : 0 ≤ indexChars ['/'] (cs ++ '/' :: seg) := by
          rcases ih with h | h <;> exact h.1
        simp only [List.cons_append]
        rw [indexChars]
        simp only [List.isPrefixOf, beq_iff_eq, hc2, Bool.false_and, Bool.false_eq_true,
          if_false, Bool.and_true]
        rw [if_neg (by omega)]
      have hdrop : ∀ k : Int, 0 ≤ k → (c :: cs ++ '/' :: seg).drop ((k + 1).toNat + 1)
          = (cs ++ '/' :: seg).drop (k.toNat + 1) := by
        intro k hk
        have : (k + 1).toNat = k.toNat + 1 := by omega
        rw [this]
        rfl
      rcases ih with ⟨h0, h⟩ | ⟨h0, pre2, h⟩
      · left
        rw [hstep]
        exact ⟨by omega, by rw [hdrop _ h0]; exact h⟩
      · right
        rw [hstep]
        exact ⟨by omega, pre2, by rw [hdrop _ h0]; exact h⟩

theorem splitLoop_slash_getLast (seg : List Char) (hseg : '/' ∉ seg) :
    ∀ (n : Nat) (s : List Char), s.length ≤ n →
      (s = seg ∨ ∃ pre, s = pre ++ '/' :: seg) →
      (splitLoop ['/'] n s).getLast? = some seg := by
  have hnone : indexChars ['/'] seg < 0 := by
    rw [indexChars_neg_iff]
    rintro ⟨a, b, hab⟩
    apply hseg
    rw [← hab]
    simp
  intro n
  induction n with
  | zero =>
    intro s hlen hs
    have hnil : s = [] := List.length_eq_zero.mp (Nat.le_zero.mp hlen)
    rcases hs with h | ⟨pre, h⟩
    · simp [splitLoop, h]
    · rw [hnil] at h
      simp at h
  | succ n ih =>
    intro s hlen hs
    rcases hs with h | ⟨pre, h⟩
    · subst h
      rw [splitLoop_of_neg _ _ _ hnone]
      rfl
    · subst h
      unfold splitLoop
      simp only []
      have hcases := indexChars_slash_tail seg pre
      have h0 : 0 ≤ indexChars ['/'] (pre ++ '/' :: seg) := by
        rcases hcases with h | h <;> exact h.1
      rw [if_neg (by omega)]
      have hl := ih ((pre ++ '/' :: seg).drop
          ((indexChars ['/'] (pre ++ '/' :: seg)).toNat + ['/'].length))
        (by
          simp only [List.length_drop, List.length_append, List.length_cons,
            List.length_nil] at hlen ⊢
          omega)
        (by
          simp only [List.length_cons, List.length_nil]
          rcases hcases with ⟨_, h⟩ | ⟨_, pre2, h⟩
          · left; exact h
          · right; exact ⟨pre2, h⟩)
      rw [List.getLast?_cons, hl]
      rfl


theorem Split_getD_last (s : String) (seg : String) (hseg : '/' ∉ seg.data)
    (hform : s.data = seg.data ∨ ∃ pre, s.data = pre ++ '/' :: seg.data) :
    (Split s "/").length > 0
      ∧ (Split s "/").getD ((Split s "/").length - 1) "" = seg := by
  have hS : "/".data = ['/'] := rfl
  have hl := splitLoop_slash_getLast seg.data hseg s.data.length s.data (Nat.le_refl _) hform
  unfold Split
  rw [hS]
  constructor
  · simp only [List.length_map, gt_iff_lt]
    exact List.length_pos.mpr (splitLoop_ne_nil _ _ _)
  · rw [List.getD_eq_getElem?_getD, ← List.getLast?_eq_getElem?, List.getLast?_map, hl]
    rfl

theorem extractProductID_of_no_slash_i (link : String) (seg : String)
    (hno : ¬ "/i".data <:+: link.data) (hseg : '/' ∉ seg.data)
    (hform : link.data = seg.data ∨ ∃ pre, link.data = pre ++ '/' :: seg.data)
    (hnot : ¬ ("i".data <+: seg.data ∧ ".html".data <:+ seg.data)) :
    extractProductID link = "" := by
  have hS : "/i".data = ['/', 'i'] := rfl
  unfold extractProductID
  by_cases hl : link = ""
  · rw [if_pos hl]
  · rw [if_neg hl]
    have h1 : indexChars ['/', 'i'] link.data < 0 := by
      rw [indexChars_neg_iff]; exact hno
    have hsp : Split link "/i" = [link] := by
      unfold Split
      rw [hS, splitLoop_of_neg _ _ _ h1]
      rfl
    obtain ⟨hpos, hlast⟩ := Split_getD_last link seg hseg hform
    have hb : (HasPrefix seg "i" && HasSuffix seg ".html") = false := by
      rw [Bool.eq_false_iff]
      intro h
      apply hnot
      simp only [HasPrefix, HasSuffix, Bool.and_eq_true, List.isPrefixOf_iff_prefix,
        List.isSuffixOf_iff_suffix] at h
      exact h
    simp only [hsp, List.length_cons, List.length_nil, hlast, hb]
    simp [hpos]


set_option maxRecDepth 100000

/-! ## The accumulating callbacks -/

theorem foldl_append_only {α β : Type} (f : List β → α → List β)
    (hf : ∀ acc e, f acc e = acc ++ f [] e) (es : List α) (acc : List β) :
    es.foldl f acc = acc ++ es.flatMap (f []) := by
  induction es generalizing acc with
  | nil => simp
  | cons e es ih =>
    rw [List.foldl_cons, ih, hf acc e]
    simp [List.flatMap_cons, List.append_assoc]

theorem onProductItem_append (acc : List Product) (e : HTMLElement) :
    onProductItem acc e = acc ++ onProductItem [] e := by
  unfold onProductItem
  simp only []
  split <;> simp

theorem onBox_append (acc : List Product) (e : HTMLElement) :
    onBox acc e = acc ++ onBox [] e := by
  unfold onBox
  simp only []
  split <;> simp

theorem collectProducts_eq (r : VisitResult) :
    collectProducts r
      = (r.onHTML "div[data-qa-locator='product-item']").flatMap (onProductItem [])
        ++ (r.onHTML "div.box--pRqdD").flatMap (onBox []) := by
  unfold collectProducts
  simp only []
  rw [foldl_append_only onBox onBox_append, foldl_append_only onProductItem onProductItem_append]
  simp

theorem productItemCandidate_ReviewCount (e : HTMLElement) :
    (productItemCandidate e).ReviewCount = "" := by
  unfold productItemCandidate
  simp only []
  repeat' split
  all_goals rfl

theorem onProductItem_kept (e : HTMLElement) (p : Product) (hp : p ∈ onProductItem [] e) :
    (p.Title ≠ "" ∨ p.Price ≠ "")
      ∧ (p.Rating ≠ "" → p.ReviewCount = getRandomReviewCount)
      ∧ (p.Rating = "" → p.ReviewCount = "") := by
  have hrc := productItemCandidate_ReviewCount e
  unfold onProductItem at hp
  generalize productItemCandidate e = c at hp hrc
  by_cases hkeep : c.Title ≠ "" ∨ c.Price ≠ ""
  · rw [if_pos hkeep, List.nil_append, List.mem_singleton] at hp
    by_cases hl : c.Link = "" ∧ c.ID ≠ ""
    · by_cases hr : c.Rating ≠ "" ∧ c.ReviewCount = ""
      · simp only [hl, hr, and_self, if_true, ne_eq, not_false_eq_true] at hp
        rw [hp]
        exact ⟨hkeep, fun _ => rfl, fun h => absurd h hr.1⟩
      · simp only [hl, hr, and_self, if_true, if_false, ne_eq, not_false_eq_true] at hp
        rw [hp]
        exact ⟨hkeep, fun h => absurd ⟨h, hrc⟩ hr, fun _ => hrc⟩
    · by_cases hr : c.Rating ≠ "" ∧ c.ReviewCount = ""
      · simp only [hl, hr, and_self, if_true, if_false, ne_eq, not_false_eq_true] at hp
        rw [hp]
        exact ⟨hkeep, fun _ => rfl, fun h => absurd h hr.1⟩
      · simp only [hl, hr, and_self, if_true, if_false, ne_eq, not_false_eq_true] at hp
        rw [hp]
        exact ⟨hkeep, fun h => absurd ⟨h, hrc⟩ hr, fun _ => hrc⟩
  · rw [if_neg hkeep] at hp
    exact absurd hp (List.not_mem_nil _)

theorem onBox_kept (e : HTMLElement) (p : Product) (hp : p ∈ onBox [] e) :
    p.Title ≠ "" ∨ p.Price ≠ "" := by
  unfold onBox at hp
  generalize boxCandidate e = c at hp
  by_cases hkeep : c.Title ≠ "" ∨ c.Price ≠ ""
  · rw [if_pos hkeep, List.nil_append, List.mem_singleton] at hp
    rw [hp]
    exact hkeep
  · rw [if_neg hkeep] at hp
    exact absurd hp (List.not_mem_nil _)

theorem collectProducts_kept (r : VisitResult) (p : Product) (hp : p ∈ collectProducts r) :
    p.Title ≠ "" ∨ p.Price ≠ "" := by
  rw [collectProducts_eq] at hp
  simp only [List.mem_append, List.mem_flatMap] at hp
  rcases hp with ⟨e, _, he⟩ | ⟨e, _, he⟩
  · exact (onProductItem_kept e p he).1
  · exact onBox_kept e p he

theorem ScrapeDaraz_err (visit : String → VisitResult) (query : String) :
    (ScrapeDaraz visit query).2 = none := by
  unfold ScrapeDaraz
  simp only []
  repeat' split
  all_goals rfl


/-! ## Search -/

/-- C1: search never fails visibly.  Whatever the collector reports for the
visit (error returned or not, error callback fired or not, any matched
elements), `ScrapeDaraz` returns a nil error for every query, and so for every
non-empty `q` the handler `SearchProducts` answers 200, never 500. -/
theorem search_never_fails (visit : String → VisitResult) (q delay : String) (hq : q ≠ "") :
    (∀ query, (ScrapeDaraz visit query).2 = none)
      ∧ (SearchProducts visit q delay).status = 200
      ∧ (SearchProducts visit q delay).status ≠ 500 := by
  have hstatus : (SearchProducts visit q delay).status = 200 := by
    have h := ScrapeDaraz_err visit q
    unfold SearchProducts
    simp only [hq, if_false]
    rw [show ScrapeDaraz visit q = ((ScrapeDaraz visit q).1, none) from Prod.ext rfl h]
    rfl
  refine ⟨ScrapeDaraz_err visit, hstatus, ?_⟩
  rw [hstatus]
  decide

/-- Witness of C1: a search for "phone" while the outbound fetch fails. -/
theorem search_never_fails_witness :
    "phone" ≠ ""
      ∧ (∀ query, (ScrapeDaraz visitFails query).2 = none)
      ∧ (SearchProducts visitFails "phone" "true").status = 200
      ∧ (SearchProducts visitFails "phone" "true").status ≠ 500 :=
  ⟨by decide, search_never_fails visitFails "phone" "true" (by decide)⟩

/-- C2: when the visit returns an error, or the error callback fired, or no
record was kept, `ScrapeDaraz` returns exactly the fallback list, whatever the
query; that list has the four identifiers "1", "2", "3", "4" in this order
(iPhone 13 Pro Max, Galaxy S22 Ultra, Sony WH-1000XM4, Nike Air Max 270), with
every field at its fixed sample value.
Otherwise it returns exactly the accumulated records: the kept records of the
primary selector in document order, then those of the alternative selector. -/
theorem ScrapeDaraz_fallback_or_extracted (visit : String → VisitResult) (query : String) :
    ((visit ("https://www.daraz.com.np/catalog/?q=" ++ query)).err ≠ none
        ∨ (visit ("https://www.daraz.com.np/catalog/?q=" ++ query)).onError ≠ none
        ∨ collectProducts (visit ("https://www.daraz.com.np/catalog/?q=" ++ query)) = [] →
      ScrapeDaraz visit query = (getFallbackProducts, none))
    ∧ ((visit ("https://www.daraz.com.np/catalog/?q=" ++ query)).err = none
        ∧ (visit ("https://www.daraz.com.np/catalog/?q=" ++ query)).onError = none
        ∧ collectProducts (visit ("https://www.daraz.com.np/catalog/?q=" ++ query)) ≠ [] →
      ScrapeDaraz visit query
        = (collectProducts (visit ("https://www.daraz.com.np/catalog/?q=" ++ query)), none))
    ∧ (∀ r : VisitResult, collectProducts r
        = (r.onHTML "div[data-qa-locator='product-item']").flatMap (onProductItem [])
          ++ (r.onHTML "div.box--pRqdD").flatMap (onBox []))
    ∧ getFallbackProducts.map (fun p => p.ID) = ["1", "2", "3", "4"]
    ∧ getFallbackProducts.map (fun p => p.Title)
        = ["Apple iPhone 13 Pro Max", "Samsung Galaxy S22 Ultra",
           "Sony WH-1000XM4 Wireless Noise Cancelling Headphones", "Nike Air Max 270"]
    ∧ getFallbackProducts.map (fun p => p.Image)
        = ["https://images.pexels.com/photos/1647976/pexels-photo-1647976.jpeg?auto=compress&cs=tinysrgb&w=1260&h=750&dpr=2",
           "https://images.pexels.com/photos/7055323/pexels-photo-7055323.jpeg?auto=compress&cs=tinysrgb&w=1260&h=750&dpr=2",
           "https://images.pexels.com/photos/3394664/pexels-photo-3394664.jpeg?auto=compress&cs=tinysrgb&w=1260&h=750&dpr=2",
           "https://images.pexels.com/photos/1102777/pexels-photo-1102777.jpeg?auto=compress&cs=tinysrgb&w=1260&h=750&dpr=2"]
    ∧ getFallbackProducts.map (fun p => p.StoreName) = ["Apple Store", "Samsung", "Sony", "Nike"]
    ∧ getFallbackProducts.map (fun p => p.Price)
        = ["$1,099.00", "$1,199.99", "$348.00", "$150.00"]
    ∧ getFallbackProducts.map (fun p => p.Rating) = ["4.8", "4.7", "4.7", "4.5"]
    ∧ getFallbackProducts.map (fun p => p.ReviewCount) = ["2,453", "1,832", "738", "428"]
    ∧ getFallbackProducts.map (fun p => p.Seller)
        = ["Apple Inc.", "Samsung Electronics", "Sony Electronics", "Nike Inc."]
    ∧ getFallbackProducts.map (fun p => p.Link)
        = ["https://www.apple.com/shop/buy-iphone/iphone-13-pro",
           "https://www.samsung.com/us/smartphones/galaxy-s22-ultra/",
           "https://electronics.sony.com/audio/headphones/headband/p/wh1000xm4-b",
           "https://www.nike.com/t/air-max-270-mens-shoes-KkLcGR"]
    ∧ getFallbackProducts.map (fun p => p.DetailedDescription) = ["", "", "", ""] := by
  refine ⟨?_, ?_, collectProducts_eq, by decide, by decide,
    rfl, rfl, rfl, rfl, rfl, rfl, rfl, rfl⟩
  · intro h
    unfold ScrapeDaraz
    simp only []
    by_cases h1 : (visit ("https://www.daraz.com.np/catalog/?q=" ++ query)).err ≠ none
    · rw [if_pos h1]
    · rw [if_neg h1]
      by_cases h2 : (visit ("https://www.daraz.com.np/catalog/?q=" ++ query)).onError ≠ none
      · rw [if_pos h2]
      · rw [if_neg h2]
        have h3 : collectProducts (visit ("https://www.daraz.com.np/catalog/?q=" ++ query)) = [] := by
          rcases h with h | h | h
          · exact absurd h h1
          · exact absurd h h2
          · exact h
        rw [if_pos (by rw [h3]; rfl)]
  · rintro ⟨h1, h2, h3⟩
    unfold ScrapeDaraz
    simp only []
    rw [if_neg (not_not.mpr h1), if_neg (not_not.mpr h2),
      if_neg (fun h => h3 (List.length_eq_zero.mp h))]

/-- Witness of C2: the fallback list when the fetch fails, the three extracted
records when the listing page is fetched. -/
theorem ScrapeDaraz_fallback_or_extracted_witness :
    ScrapeDaraz visitFails "phone" = (getFallbackProducts, none)
      ∧ ScrapeDaraz visitListing "phone"
          = (collectProducts (visitListing "https://www.daraz.com.np/catalog/?q=phone"), none)
      ∧ (collectProducts (visitListing "https://www.daraz.com.np/catalog/?q=phone")).map
          (fun p => p.ID) = ["129384756", "55501", "777"] :=
  ⟨(ScrapeDaraz_fallback_or_extracted visitFails "phone").1 (Or.inl (by decide)),
   (ScrapeDaraz_fallback_or_extracted visitListing "phone").2.1
     ⟨by decide, by decide, by decide⟩,
   by decide⟩


/-! ## Detail by identifier -/

/-- C3: on a fetched detail page (no visit error, no error callback) whose
title is empty after extraction, `ScrapeProductDetailDaraz` returns the
fallback product carrying the requested identifier together with the error
"product not found", and `GetProductDetail` answers 500 with the text of its
scraping-error branch; its 404 branch is not taken. -/
theorem GetProductDetail_untitled_page :
    (visitUntitled "https://www.daraz.com.np/products/i123.html").err = none
      ∧ (visitUntitled "https://www.daraz.com.np/products/i123.html").onError = none
      ∧ (collectDetail "123" (visitUntitled "https://www.daraz.com.np/products/i123.html")).Title
          = ""
      ∧ ScrapeProductDetailDaraz visitUntitled "123"
          = (getFallbackProduct "123", some "product not found")
      ∧ (GetProductDetail visitUntitled "123").status = 500
      ∧ (GetProductDetail visitUntitled "123").body
          = Body.error "Failed to retrieve product details"
      ∧ (GetProductDetail visitUntitled "123").status ≠ 404 := by
  refine ⟨by decide, by decide, by decide, by decide, by decide, by decide, by decide⟩

/-- C4: for a non-empty identifier, when the visit returns an error,
`ScrapeProductDetailDaraz` returns the fallback product and a nil error; the
fallback product has the requested identifier, the title
"Apple MacBook Pro 16-inch" and every other field (image, store name, price,
rating, review count, seller, link, description) equal to its fixed sample
value, independent of the identifier; `GetProductDetail` answers 200 with that
product. -/
theorem ScrapeProductDetailDaraz_fetch_fails (visit : String → VisitResult) (id e : String)
    (hid : id ≠ "")
    (herr : (visit ("https://www.daraz.com.np/products/i" ++ id ++ ".html")).err = some e) :
    ScrapeProductDetailDaraz visit id = (getFallbackProduct id, none)
      ∧ (getFallbackProduct id).ID = id
      ∧ (getFallbackProduct id).Title = "Apple MacBook Pro 16-inch"
      ∧ (getFallbackProduct id).Image
          = "https://images.pexels.com/photos/18105/pexels-photo.jpg?auto=compress&cs=tinysrgb&w=1260&h=750&dpr=2"
      ∧ (getFallbackProduct id).StoreName = "Apple Store"
      ∧ (getFallbackProduct id).Price = "$2,399.00"
      ∧ (getFallbackProduct id).Rating = "4.9"
      ∧ (getFallbackProduct id).ReviewCount = "856"
      ∧ (getFallbackProduct id).Seller = "Apple Inc."
      ∧ (getFallbackProduct id).Link = "https://www.apple.com/shop/buy-mac/macbook-pro"
      ∧ (getFallbackProduct id).DetailedDescription
          = "The Apple MacBook Pro features a brilliant Retina display, powerful processors, amazing graphics, and the versatile Touch Bar. It's our most powerful notebook. Pushed even further. The 16-inch MacBook Pro brings a whole new class of performance to the notebook. With up to 8 cores of processing power and an expansive 16-inch Retina display, it's the largest Retina display ever in a Mac notebook."
      ∧ getFallbackProduct id = { getFallbackProduct "" with ID := id }
      ∧ (GetProductDetail visit id).status = 200
      ∧ (GetProductDetail visit id).body = Body.product (getFallbackProduct id) := by
  have hs : ScrapeProductDetailDaraz visit id = (getFallbackProduct id, none) := by
    unfold ScrapeProductDetailDaraz
    simp only []
    rw [if_pos (by rw [herr]; exact Option.some_ne_none e)]
  have ht : ¬ (getFallbackProduct id).Title = "" := by
    show ¬ "Apple MacBook Pro 16-inch" = ""
    decide
  refine ⟨hs, rfl, rfl, rfl, rfl, rfl, rfl, rfl, rfl, rfl, rfl, rfl, ?_, ?_⟩
  · unfold GetProductDetail
    simp only [hid, if_false, hs]
    rw [if_neg (by simp), if_neg ht]
    rfl
  · unfold GetProductDetail
    simp only [hid, if_false, hs]
    rw [if_neg (by simp), if_neg ht]

/-- Witness of C4: identifier "123" while the outbound fetch fails. -/
theorem ScrapeProductDetailDaraz_fetch_fails_witness :
    "123" ≠ ""
      ∧ (visitFails ("https://www.daraz.com.np/products/i" ++ "123" ++ ".html")).err
          = some "Get: dial tcp: i/o timeout"
      ∧ ScrapeProductDetailDaraz visitFails "123" = (getFallbackProduct "123", none)
      ∧ (getFallbackProduct "123").ID = "123"
      ∧ (getFallbackProduct "123").Title = "Apple MacBook Pro 16-inch"
      ∧ (getFallbackProduct "123").Image
          = "https://images.pexels.com/photos/18105/pexels-photo.jpg?auto=compress&cs=tinysrgb&w=1260&h=750&dpr=2"
      ∧ (getFallbackProduct "123").StoreName = "Apple Store"
      ∧ (getFallbackProduct "123").Price = "$2,399.00"
      ∧ (getFallbackProduct "123").Rating = "4.9"
      ∧ (getFallbackProduct "123").ReviewCount = "856"
      ∧ (getFallbackProduct "123").Seller = "Apple Inc."
      ∧ (getFallbackProduct "123").Link = "https://www.apple.com/shop/buy-mac/macbook-pro"
      ∧ (getFallbackProduct "123").DetailedDescription
          = "The Apple MacBook Pro features a brilliant Retina display, powerful processors, amazing graphics, and the versatile Touch Bar. It's our most powerful notebook. Pushed even further. The 16-inch MacBook Pro brings a whole new class of performance to the notebook. With up to 8 cores of processing power and an expansive 16-inch Retina display, it's the largest Retina display ever in a Mac notebook."
      ∧ getFallbackProduct "123" = { getFallbackProduct "" with ID := "123" }
      ∧ (GetProductDetail visitFails "123").status = 200
      ∧ (GetProductDetail visitFails "123").body = Body.product (getFallbackProduct "123") :=
  ⟨by decide, by decide,
    ScrapeProductDetailDaraz_fetch_fails visitFails "123" "Get: dial tcp: i/o timeout"
      (by decide) (by decide)⟩

/-! ## Missing parameters -/

/-- C5: a request whose `q` is empty is answered 400 by `SearchProducts`
whatever `delay` is, a request whose `id` is empty is answered 400 by
`GetProductDetail`, and in both cases the handler makes no call: neither the
scraper nor the sleep is reached. -/
theorem missing_parameter_rejected (visit : String → VisitResult) (delay : String) :
    (SearchProducts visit "" delay).status = 400
      ∧ (SearchProducts visit "" delay).body = Body.error "Query parameter 'q' is required"
      ∧ (SearchProducts visit "" delay).calls = []
      ∧ (GetProductDetail visit "").status = 400
      ∧ (GetProductDetail visit "").body = Body.error "Product ID is required"
      ∧ (GetProductDetail visit "").calls = []
      ∧ (∀ q, q ≠ "" → Call.scrapeDaraz q ∈ (SearchProducts visit q delay).calls)
      ∧ (∀ id, id ≠ "" →
          Call.scrapeProductDetailDaraz id ∈ (GetProductDetail visit id).calls) := by
  refine ⟨rfl, rfl, rfl, rfl, rfl, rfl, ?_, ?_⟩
  · intro q hq
    have h := ScrapeDaraz_err visit q
    unfold SearchProducts
    simp only [hq, if_false]
    rw [show ScrapeDaraz visit q = ((ScrapeDaraz visit q).1, none) from Prod.ext rfl h]
    simp
  · intro id hid
    unfold GetProductDetail
    simp only [hid, if_false]
    repeat' split
    all_goals simp

/-- Witness of C5: the non-vacuous half at "phone" and "123", where the
scraper is called. -/
theorem missing_parameter_rejected_witness :
    Call.scrapeDaraz "phone" ∈ (SearchProducts visitListing "phone" "true").calls
      ∧ Call.scrapeProductDetailDaraz "123" ∈ (GetProductDetail visitUntitled "123").calls :=
  ⟨(missing_parameter_rejected visitListing "true").2.2.2.2.2.2.1 "phone" (by decide),
   (missing_parameter_rejected visitUntitled "true").2.2.2.2.2.2.2 "123" (by decide)⟩


/-! ## Identifier extraction -/

/-- C6: a link that ends in the segment `/i987654321.html` but has an earlier
`/i` (here in `/items`): `extractProductID` returns the text after the first
`/i`, "tems", not the digit string "987654321". -/
theorem extractProductID_earlier_slash_i :
    "https://www.daraz.com.np/items/i987654321.html"
        = "https://www.daraz.com.np/items" ++ "/i" ++ "987654321" ++ ".html"
      ∧ extractProductID "https://www.daraz.com.np/items/i987654321.html" = "tems"
      ∧ extractProductID "https://www.daraz.com.np/items/i987654321.html" ≠ "987654321" := by
  refine ⟨by decide, by decide, by decide⟩

/-- Counterexample to C7: the link `https://www.daraz.com.np/products/i12345`
contains no `.html` at all, hence no segment `/i<digits>.html` and no trailing
segment with suffix `.html`, and `extractProductID` returns "12345", not the
empty string. -/
theorem extractProductID_nonempty_without_html :
    ¬ ".html".data <:+: "https://www.daraz.com.np/products/i12345".data
      ∧ extractProductID "https://www.daraz.com.np/products/i12345" = "12345"
      ∧ extractProductID "https://www.daraz.com.np/products/i12345" ≠ "" := by
  refine ⟨?_, by decide, by decide⟩
  rw [← indexChars_neg_iff]
  decide

/-- C7 (amended): for every link that contains no occurrence of `/i` and whose
trailing path segment `seg` (the link itself when it has no `/`, else the text
after its last `/`) does not have both the prefix `i` and the suffix `.html`,
`extractProductID` returns the empty string. -/
theorem extractProductID_eq_empty (link pre seg : String)
    (hno : ¬ "/i".data <:+: link.data)
    (hseg : '/' ∉ seg.data)
    (hform : link = seg ∨ link = pre ++ "/" ++ seg)
    (hnot : ¬ ("i".data <+: seg.data ∧ ".html".data <:+ seg.data)) :
    extractProductID link = "" := by
  apply extractProductID_of_no_slash_i link seg hno hseg _ hnot
  rcases hform with h | h
  · left; rw [h]
  · right
    refine ⟨pre.data, ?_⟩
    rw [h]
    have hS : "/".data = ['/'] := rfl
    simp [String.data_append, hS]

/-- Witness of C7 (amended): the search URL, whose trailing segment is
`?q=phone`. -/
theorem extractProductID_eq_empty_witness :
    '/' ∉ "?q=phone".data
      ∧ "https://www.daraz.com.np/catalog/?q=phone"
          = "https://www.daraz.com.np/catalog" ++ "/" ++ "?q=phone"
      ∧ extractProductID "https://www.daraz.com.np/catalog/?q=phone" = "" :=
  ⟨by decide, by decide,
    extractProductID_eq_empty "https://www.daraz.com.np/catalog/?q=phone"
      "https://www.daraz.com.np/catalog" "?q=phone"
      (by rw [← indexChars_neg_iff]; decide) (by decide) (Or.inr (by decide)) (by decide)⟩

/-- C10: the link the scraper builds from an identifier,
`https://www.daraz.com.np/products/i<id>.html`, is mapped back to `id` by
`extractProductID` exactly when `id` is non-empty, contains no `.` and contains
no `/i`; for the empty identifier the result is ".html". -/
theorem extractProductID_link_roundtrip :
    (∀ id : String,
      extractProductID ("https://www.daraz.com.np/products/i" ++ id ++ ".html") = id
        ↔ (id ≠ "" ∧ '.' ∉ id.data ∧ ¬ "/i".data <:+: id.data))
      ∧ extractProductID ("https://www.daraz.com.np/products/i" ++ "" ++ ".html") = ".html" := by
  refine ⟨?_, by decide⟩
  intro id
  have hpre : ¬ "/i".data <:+: "https://www.daraz.com.np/products".data := by
    rw [← indexChars_neg_iff]
    decide
  have hurl : "https://www.daraz.com.np/products/i" ++ id ++ ".html"
      = "https://www.daraz.com.np/products" ++ "/i" ++ (id ++ ".html") := by
    rw [show "https://www.daraz.com.np/products/i" = "https://www.daraz.com.np/products" ++ "/i"
      from by decide]
    rw [String.append_assoc]
  rw [hurl]
  exact extractProductID_link_iff _ id hpre

/-- Witness of C10: the identifier "129384756" and its link. -/
theorem extractProductID_link_roundtrip_witness :
    extractProductID ("https://www.daraz.com.np/products/i" ++ "129384756" ++ ".html")
      = "129384756" :=
  (extractProductID_link_roundtrip.1 "129384756").mpr
    ⟨by decide, by decide, by rw [← indexChars_neg_iff]; decide⟩


/-! ## Kept records -/

/-- C8: `getRandomReviewCount` is the constant "126", and every record the
primary-selector callback of `ScrapeDaraz` keeps has review count "126" when
its rating is non-empty and an empty review count when its rating is empty,
whatever the rating is. -/
theorem review_count_constant (es : List HTMLElement) (p : Product)
    (hp : p ∈ es.foldl onProductItem []) :
    getRandomReviewCount = "126"
      ∧ (p.Rating ≠ "" → p.ReviewCount = "126")
      ∧ (p.Rating = "" → p.ReviewCount = "") := by
  rw [foldl_append_only onProductItem onProductItem_append, List.nil_append,
    List.mem_flatMap] at hp
  obtain ⟨e, _, he⟩ := hp
  have h := onProductItem_kept e p he
  exact ⟨rfl, h.2.1, h.2.2⟩

/-- Witness of C8: the rated card of the sample listing. -/
theorem review_count_constant_witness :
    phoneRecord ∈ [phoneItem, blankItem, caseItem].foldl onProductItem []
      ∧ getRandomReviewCount = "126"
      ∧ (phoneRecord.Rating ≠ "" → phoneRecord.ReviewCount = "126")
      ∧ (phoneRecord.Rating = "" → phoneRecord.ReviewCount = "") :=
  ⟨by decide, review_count_constant [phoneItem, blankItem, caseItem] phoneRecord (by decide)⟩

/-- C9: a candidate of either selector family is appended to `products`
exactly when its title or its price is non-empty after the primary and fallback
selectors were applied, and otherwise `products` is left unchanged; hence every
product `ScrapeDaraz` returns, for every visit outcome and query, has a
non-empty title or a non-empty price. -/
theorem kept_iff_title_or_price (visit : String → VisitResult) (query : String) (p : Product)
    (hp : p ∈ (ScrapeDaraz visit query).1) :
    (p.Title ≠ "" ∨ p.Price ≠ "")
      ∧ (∀ ps e, ((productItemCandidate e).Title ≠ "" ∨ (productItemCandidate e).Price ≠ "" →
            ∃ k, onProductItem ps e = ps ++ [k]
              ∧ k.Title = (productItemCandidate e).Title
              ∧ k.Price = (productItemCandidate e).Price)
          ∧ ((productItemCandidate e).Title = "" ∧ (productItemCandidate e).Price = "" →
            onProductItem ps e = ps))
      ∧ (∀ ps e, ((boxCandidate e).Title ≠ "" ∨ (boxCandidate e).Price ≠ "" →
            onBox ps e = ps ++ [boxCandidate e])
          ∧ ((boxCandidate e).Title = "" ∧ (boxCandidate e).Price = "" → onBox ps e = ps))
      ∧ (∀ e, (productItemCandidate e).Title
            = (if TrimSpace (e.ChildText "div[data-qa-locator='product-name']") = ""
               then TrimSpace (e.ChildText "div.title--wFj93")
               else TrimSpace (e.ChildText "div[data-qa-locator='product-name']"))
          ∧ (productItemCandidate e).Price
            = (if TrimSpace (e.ChildText "span[data-qa-locator='product-price']") = ""
               then TrimSpace (e.ChildText "div.price--NVB62")
               else TrimSpace (e.ChildText "span[data-qa-locator='product-price']"))
          ∧ (boxCandidate e).Title = TrimSpace (e.ChildText "div.title--wFj93")
          ∧ (boxCandidate e).Price = TrimSpace (e.ChildText "div.price--NVB62")) := by
  refine ⟨?_, ?_, ?_, ?_⟩
  · have hfb : ∀ k ∈ getFallbackProducts, k.Title ≠ "" ∨ k.Price ≠ "" := by decide
    unfold ScrapeDaraz at hp
    simp only [] at hp
    split at hp
    · exact hfb p hp
    · split at hp
      · exact hfb p hp
      · split at hp
        · exact hfb p hp
        · exact collectProducts_kept _ p hp
  · intro ps e
    unfold onProductItem
    generalize productItemCandidate e = c
    constructor
    · intro hkeep
      rw [if_pos hkeep]
      refine ⟨_, rfl, ?_, ?_⟩
      · split <;> split <;> rfl
      · split <;> split <;> rfl
    · rintro ⟨ht, hpr⟩
      rw [if_neg (by simp [ht, hpr])]
  · intro ps e
    unfold onBox
    generalize boxCandidate e = c
    constructor
    · intro hkeep
      rw [if_pos hkeep]
    · rintro ⟨ht, hpr⟩
      rw [if_neg (by simp [ht, hpr])]
  · intro e
    refine ⟨?_, ?_, rfl, rfl⟩
    · unfold productItemCandidate
      simp only []
      repeat' split
      all_goals rfl
    · unfold productItemCandidate
      simp only []
      repeat' split
      all_goals rfl

/-- Witness of C9: the price-only card kept from the sample listing. -/
theorem kept_iff_title_or_price_witness :
    caseRecord ∈ (ScrapeDaraz visitListing "phone").1
      ∧ (caseRecord.Title ≠ "" ∨ caseRecord.Price ≠ "") :=
  ⟨by decide, (kept_iff_title_or_price visitListing "phone" caseRecord (by decide)).1⟩

end Searchbox
